import Mathlib

/-!
Verification of the `go-installer` command-line program (src/main.rs).

The program is a linear pipeline: privilege guard → release resolver →
downloader → checksum verifier → installer → final message / cleanup.
We shallowly embed each function over explicit data (byte lists for file
contents, an oracle environment for the fallible external calls, and an
event trace for the observable effect ordering) and prove the specified
properties about the embedding.

Machine integers are modelled as `Nat` with explicit reduction `% 2^32`
where the Rust code computes on 32-bit words (inside SHA-256).
-/

deriving instance DecidableEq for Except

set_option maxRecDepth 1000000

namespace GoInstaller

/-! ### SHA-256 (the `sha2` crate's `Sha256` as used by `verify_checksum`)

The Rust code feeds the file's bytes through `sha2::Sha256` and renders the
digest with `format!("{:x}", ...)`, i.e. lowercase hexadecimal.  We embed
SHA-256 (FIPS 180-4) over `List Nat` byte sequences, every word reduced
modulo `2^32`. -/

def M32 : Nat := 4294967296

def add32 (a b : Nat) : Nat := (a + b) % M32

def rotr (n x : Nat) : Nat := ((x >>> n) ||| (x <<< (32 - n))) % M32

def not32 (x : Nat) : Nat := x ^^^ (M32 - 1)

def sumBigA (x : Nat) : Nat := rotr 2 x ^^^ rotr 13 x ^^^ rotr 22 x

def sumBigE (x : Nat) : Nat := rotr 6 x ^^^ rotr 11 x ^^^ rotr 25 x

def sumSmallA (x : Nat) : Nat := rotr 7 x ^^^ rotr 18 x ^^^ (x >>> 3)

def sumSmallE (x : Nat) : Nat := rotr 17 x ^^^ rotr 19 x ^^^ (x >>> 10)

def shaK : List Nat :=
  [1116352408, 1899447441, 3049323471, 3921009573, 961987163,
   1508970993, 2453635748, 2870763221, 3624381080, 310598401,
   607225278, 1426881987, 1925078388, 2162078206, 2614888103,
   3248222580, 3835390401, 4022224774, 264347078, 604807628,
   770255983, 1249150122, 1555081692, 1996064986, 2554220882,
   2821834349, 2952996808, 3210313671, 3336571891, 3584528711,
   113926993, 338241895, 666307205, 773529912, 1294757372,
   1396182291, 1695183700, 1986661051, 2177026350, 2456956037,
   2730485921, 2820302411, 3259730800, 3345764771, 3516065817,
   3600352804, 4094571909, 275423344, 430227734, 506948616,
   659060556, 883997877, 958139571, 1322822218, 1537002063,
   1747873779, 1955562222, 2024104815, 2227730452, 2361852424,
   2428436474, 2756734187, 3204031479, 3329325298]

def shaH0 : List Nat :=
  [1779033703, 3144134277, 1013904242, 2773480762,
   1359893119, 2600822924, 528734635, 1541459225]

/-- Big-endian 8-byte rendering of a (bit-)length. -/
def lenBytes (n : Nat) : List Nat :=
  [(n >>> 56) % 256, (n >>> 48) % 256, (n >>> 40) % 256, (n >>> 32) % 256,
   (n >>> 24) % 256, (n >>> 16) % 256, (n >>> 8) % 256, n % 256]

/-- SHA-256 padding: append `0x80`, zeros to 56 mod 64, then the message
bit length as 8 big-endian bytes. -/
def shaPad (msg : List Nat) : List Nat :=
  msg ++ [0x80] ++ List.replicate ((119 - msg.length % 64) % 64) 0
      ++ lenBytes (msg.length * 8)

/-- Split a byte list into 64-byte blocks (fuel-based structural recursion;
the fuel is the list length, which suffices). -/
def chunksAux : Nat → List Nat → List (List Nat)
  | 0, _ => []
  | _, [] => []
  | fuel + 1, l => l.take 64 :: chunksAux fuel (l.drop 64)

def chunks (l : List Nat) : List (List Nat) := chunksAux l.length l

/-- Group bytes into big-endian 32-bit words. -/
def toWordsAux : Nat → List Nat → List Nat
  | 0, _ => []
  | fuel + 1, b0 :: b1 :: b2 :: b3 :: rest =>
      (b0 * 16777216 + b1 * 65536 + b2 * 256 + b3) :: toWordsAux fuel rest
  | _ + 1, _ => []

def toWords (l : List Nat) : List Nat := toWordsAux l.length l

/-- Message-schedule extension: from 16 words to 64 words. -/
def extendWords (ws : List Nat) : List Nat :=
  (List.range 48).foldl
    (fun acc i =>
      acc ++ [add32 (add32 (acc.getD i 0) (sumSmallA (acc.getD (i + 1) 0)))
                (add32 (acc.getD (i + 9) 0) (sumSmallE (acc.getD (i + 14) 0)))])
    ws

/-- One compression round. -/
def shaRound (s : Nat × Nat × Nat × Nat × Nat × Nat × Nat × Nat) (kw : Nat × Nat) :
    Nat × Nat × Nat × Nat × Nat × Nat × Nat × Nat :=
  let (a, b, c, d, e, f, g, h) := s
  let t1 := add32 h (add32 (sumBigE e) (add32 ((e &&& f) ^^^ (not32 e &&& g))
              (add32 kw.1 kw.2)))
  let t2 := add32 (sumBigA a) ((a &&& b) ^^^ (a &&& c) ^^^ (b &&& c))
  (add32 t1 t2, a, b, c, add32 d t1, e, f, g)

/-- Compress one 64-byte block into the running hash state (8 words). -/
def shaCompress (hs : List Nat) (block : List Nat) : List Nat :=
  let w := extendWords (toWords block)
  let a0 := hs.getD 0 0
  let b0 := hs.getD 1 0
  let c0 := hs.getD 2 0
  let d0 := hs.getD 3 0
  let e0 := hs.getD 4 0
  let f0 := hs.getD 5 0
  let g0 := hs.getD 6 0
  let h0 := hs.getD 7 0
  let (a, b, c, d, e, f, g, h) :=
    (shaK.zip w).foldl shaRound (a0, b0, c0, d0, e0, f0, g0, h0)
  [add32 a0 a, add32 b0 b, add32 c0 c, add32 d0 d,
   add32 e0 e, add32 f0 f, add32 g0 g, add32 h0 h]

/-- SHA-256 digest of a byte sequence, as the 8 final 32-bit words. -/
def sha256words (msg : List Nat) : List Nat :=
  (chunks (shaPad msg)).foldl shaCompress shaH0

def hexChar (n : Nat) : Char :=
  if n < 10 then Char.ofNat (48 + n) else Char.ofNat (87 + n)

/-- Lowercase hexadecimal rendering of one 32-bit word (8 hex digits),
matching Rust's `{:x}` formatting of the digest. -/
def wordHex (w : Nat) : String :=
  String.mk [hexChar ((w >>> 28) % 16), hexChar ((w >>> 24) % 16),
             hexChar ((w >>> 20) % 16), hexChar ((w >>> 16) % 16),
             hexChar ((w >>> 12) % 16), hexChar ((w >>> 8) % 16),
             hexChar ((w >>> 4) % 16), hexChar (w % 16)]

/-- `format!("{:x}", hasher.finalize())`: the 64-character lowercase hex
rendering of the SHA-256 digest. -/
def sha256hex (msg : List Nat) : String :=
  String.join ((sha256words msg).map wordHex)

/-- ASCII lowercasing of a character (for stating case-insensitive
comparison in the claims; the Rust code itself never lowercases). -/
def lowerChar (c : Char) : Char :=
  if 65 ≤ c.toNat ∧ c.toNat ≤ 90 then Char.ofNat (c.toNat + 32) else c

def lowerStr (s : String) : String := String.mk (s.data.map lowerChar)

/-! ### Data model (`GoRelease`, `GoFile` from src/main.rs lines 15-29) -/

structure GoFile where
  filename : String
  os : String
  arch : String
  version : String
  sha256 : String
  size : Nat
  kind : String
  deriving DecidableEq, Repr

structure GoRelease where
  files : List GoFile
  deriving DecidableEq, Repr

def INSTALL_DIR : String := "/usr/local"

/-! ### Release resolver (`get_latest_go_release`, lines 72-84)

The HTTP GET and JSON parse (`ureq::get(GO_API_URL).call()?.into_json()?`)
are external calls; their combined outcome is an oracle argument of type
`Except String (List GoRelease)`: a transport or parse failure is an
`error` propagated by `?`, a successful parse is the decoded catalog. -/

/-- The filter closure at lines 77-79:
`f.os == "linux" && f.arch == arch && f.kind == "archive"`. -/
def wantedFile (arch : String) (f : GoFile) : Bool :=
  f.os == "linux" && f.arch == arch && f.kind == "archive"

/-- The selection loop at lines 76-83: scan releases in catalog order, in
each release scan `files` in listed order via `find`, return the first
match; after the loop, fail naming the OS/arch pair. -/
def findGoFile (arch : String) : List GoRelease → Except String GoFile
  | [] => .error ("Could not find a stable Go release for linux-" ++ arch)
  | r :: rest =>
    match r.files.find? (wantedFile arch) with
    | some f => .ok f
    | none => findGoFile arch rest

/-- `get_latest_go_release`: propagate a fetch/parse failure, otherwise run
the selection loop over the decoded catalog. -/
def getLatestGoRelease (arch : String)
    (fetched : Except String (List GoRelease)) : Except String GoFile :=
  match fetched with
  | .error m => .error m
  | .ok releases => findGoFile arch releases

/-- All files of a catalog, releases in order, files in listed order
(specification order for the "first match" characterisation). -/
def catFiles : List GoRelease → List GoFile
  | [] => []
  | r :: rest => r.files ++ catFiles rest

/-! ### Architecture mapping (`main`, lines 38-42) -/

/-- The `match env::consts::ARCH` at lines 38-42, as a partial map:
`none` models the `bail!("Unsupported architecture: ...")` arm. -/
def mapArch (a : String) : Option String :=
  if a = "x86_64" then some "amd64"
  else if a = "aarch64" then some "arm64"
  else none

/-! ### Filesystem model

A filesystem maps a path to the byte content of the file stored there
(`none` when no file exists at that path). -/

def FS : Type := String → Option (List Nat)

/-! ### Downloader (`download_file`, lines 87-100)

The GET (`ureq::get(url).call()?`) is an oracle `Except String (List Nat)`
giving the response body bytes; `createOk` is the outcome of
`File::create(path)?`.  The progress bar is created with `total_size` as
denominator; we record that denominator as the third component (`none`
when the GET already failed and no bar was created).  `io::copy` writes
the body verbatim into the created file. -/

def downloadFile (resp : Except String (List Nat)) (createOk : Bool)
    (path : String) (totalSize : Nat) (fs : FS) :
    Except String Unit × FS × Option Nat :=
  match resp with
  | .error m => (.error m, fs, none)
  | .ok body =>
    if createOk then
      (.ok (), fun p => if p = path then some body else fs p, some totalSize)
    else
      (.error ("failed to create " ++ path), fs, some totalSize)

/-! ### Integrity verifier (`verify_checksum`, lines 103-116) -/

/-- The comparison and error of lines 107-115, over the opened file's byte
content: render the SHA-256 digest in lowercase hex and compare with `!=`
(exact, case-sensitive string equality); on mismatch, fail with the
`bail!` message carrying the expected and the calculated hash. -/
def verifyChecksum (expected : String) (content : List Nat) :
    Except String Unit :=
  let calculated := sha256hex content
  if calculated ≠ expected then
    .error ("Checksum mismatch!\n  Expected:   " ++ expected
            ++ "\n  Calculated: " ++ calculated)
  else
    .ok ()

/-- `verify_checksum` as a filesystem action: `File::open(file_path)?`
reads the content (failing when no file is there), the hash is computed
from that content, and the filesystem is returned as the function leaves
it (the function only reads). -/
def verifyChecksumFS (expected : String) (path : String) (fs : FS) :
    Except String Unit × FS :=
  match fs path with
  | none => (.error ("failed to open " ++ path), fs)
  | some content => (verifyChecksum expected content, fs)

/-! ### Temporary path computation (`main`, line 50)

`env::temp_dir().join(&release_info.filename)` uses Rust's `Path::join`,
whose documented semantics we embed: joining an absolute path replaces
the base entirely, otherwise the components are appended. -/

structure RPath where
  absolute : Bool
  comps : List String
  deriving DecidableEq, Repr

/-- Rust `Path::join`: if the argument has a root it replaces `self`. -/
def RPath.join (p q : RPath) : RPath :=
  if q.absolute then q else ⟨p.absolute, p.comps ++ q.comps⟩

/-- Split a character list at `/` separators. -/
def splitCompsAux : List Char → List Char → List String
  | acc, [] => [String.mk acc.reverse]
  | acc, c :: rest =>
    if c = '/' then String.mk acc.reverse :: splitCompsAux [] rest
    else splitCompsAux (c :: acc) rest

/-- Parse a path string into components; a leading `/` makes it absolute,
empty components collapse (Rust `Components` normalisation). -/
def parsePath (s : String) : RPath :=
  ⟨s.data.head? == some '/',
   (splitCompsAux [] s.data).filter (fun c => !(c == ""))⟩

/-- `env::temp_dir()` on the target platform: `/tmp`. -/
def tempDir : RPath := ⟨true, ["tmp"]⟩

/-- Line 50: `let tarball_path = env::temp_dir().join(&release_info.filename)` —
the metadata-supplied filename is joined with no sanitization. -/
def tarballPath (filename : String) : RPath :=
  RPath.join tempDir (parsePath filename)

/-- Lexical normalisation: resolve `.` and `..` components. -/
def normComps (cs : List String) : List String :=
  cs.foldl
    (fun acc c =>
      if c = "." then acc
      else if c = ".." then acc.dropLast
      else acc ++ [c]) []

def normalizeR (p : RPath) : RPath := ⟨p.absolute, normComps p.comps⟩

/-- `leadsWith pre l` holds when `pre` is an initial segment of `l`. -/
def leadsWith : List String → List String → Bool
  | [], _ => true
  | _ :: _, [] => false
  | a :: as, b :: bs => a == b && leadsWith as bs

/-- A path lies under a base directory when it is absolute and its
(normalised) components start with the base's components. -/
def underDir (base p : RPath) : Bool :=
  p.absolute && leadsWith base.comps p.comps

/-! ### The run model (`main` and `install_go`)

The observable effects of a run are recorded as an event trace, in the
order the corresponding calls occur in `main` (lines 31-69) and
`install_go` (lines 119-131).  The outcomes of the external calls form an
oracle environment `Env`. -/

inductive Event where
  | guard            -- the `env::var("SUDO_USER")` check, line 33
  | fetchMeta        -- GET of the metadata URL inside get_latest_go_release, line 73
  | httpGetDownload  -- GET of the download URL inside download_file, line 88
  | createFile       -- `File::create(path)` inside download_file, line 95
  | readForHash      -- open/read of the tarball inside verify_checksum, lines 104-106
  | removeGoDir      -- `fs::remove_dir_all(&go_path)`, line 123
  | openTarball      -- `File::open(tarball_path)`, line 126
  | unpack           -- `archive.unpack(INSTALL_DIR)`, line 129
  | finalMessage     -- the ACTION REQUIRED instruction block, lines 62-65
  | removeTmp        -- `fs::remove_file(&tarball_path)`, line 67
  deriving DecidableEq, Repr

/-- Oracle outcomes of every external call a run can make. -/
structure Env where
  sudoUser : Bool                            -- SUDO_USER is set, line 33
  hostArch : String                          -- env::consts::ARCH, line 38
  fetch : Except String (List GoRelease)     -- metadata GET + JSON parse, line 73
  downloadResp : Except String (List Nat)    -- download GET body, lines 88, 96
  createOk : Bool                            -- File::create, line 95
  goDirExists : Bool                         -- go_path.exists(), line 121
  removeDirOk : Bool                         -- fs::remove_dir_all, line 123
  openTarOk : Bool                           -- File::open(tarball_path), line 126
  unpackOk : Bool                            -- archive.unpack, line 129
  removeTmpOk : Bool                         -- fs::remove_file, line 67
  deriving DecidableEq, Repr

/-- Lines 125-130 of `install_go`: open the tarball, then unpack it. -/
def extractGo (e : Env) : Except String Unit × List Event :=
  if e.openTarOk then
    if e.unpackOk then (.ok (), [.openTarball, .unpack])
    else (.error "extraction failed", [.openTarball, .unpack])
  else (.error "failed to open tarball", [.openTarball])

/-- `install_go` (lines 119-131): when `/usr/local/go` exists it is removed
recursively first, a removal failure propagating via `?` before the
tarball is even opened; then the archive is opened and unpacked. -/
def installGo (e : Env) : Except String Unit × List Event :=
  if e.goDirExists then
    if e.removeDirOk then
      let (r, t) := extractGo e
      (r, Event.removeGoDir :: t)
    else (.error "failed to remove existing installation", [Event.removeGoDir])
  else extractGo e

/-- `main` (lines 31-69): sudo guard, architecture mapping, resolver,
downloader, verifier (hashing the bytes the downloader wrote), installer,
the final instruction block, and last the temporary-file removal, every
fallible step propagating its error via `?` / `bail!`. -/
def mainModel (e : Env) : Except String Unit × List Event :=
  let t0 := [Event.guard]
  if !e.sudoUser then
    (.error ("This must be run with sudo to install Go in '"
             ++ INSTALL_DIR ++ "'."), t0)
  else
    match mapArch e.hostArch with
    | none => (.error ("Unsupported architecture: " ++ e.hostArch), t0)
    | some arch =>
      let t1 := t0 ++ [Event.fetchMeta]
      match getLatestGoRelease arch e.fetch with
      | .error m => (.error m, t1)
      | .ok file =>
        let t2 := t1 ++ [Event.httpGetDownload]
        match e.downloadResp with
        | .error m => (.error m, t2)
        | .ok body =>
          let t3 := t2 ++ [Event.createFile]
          if !e.createOk then (.error "failed to create file", t3)
          else
            let t4 := t3 ++ [Event.readForHash]
            match verifyChecksum file.sha256 body with
            | .error m => (.error m, t4)
            | .ok _ =>
              let (r, it) := installGo e
              let t5 := t4 ++ it
              match r with
              | .error m => (.error m, t5)
              | .ok _ =>
                let t6 := t5 ++ [Event.finalMessage, Event.removeTmp]
                if e.removeTmpOk then (.ok (), t6)
                else (.error "failed to remove temporary file", t6)

/-! ### Concrete fixtures for witnesses and counterexamples -/

/-- SHA-256 of the empty byte sequence, lowercase (the value of
`sha256hex []`). -/
def emptyDigest : String :=
  "e3b0c44298fc1c149afbf4c8996fb92427ae41e4649b934ca495991b7852b855"

/-- The same digest in uppercase hex. -/
def emptyDigestUpper : String :=
  "E3B0C44298FC1C149AFBF4C8996FB92427AE41E4649B934CA495991B7852B855"

/-- A release file whose sha256 matches an empty download body. -/
def fileOk : GoFile :=
  ⟨"go1.25.0.linux-amd64.tar.gz", "linux", "amd64", "go1.25.0",
   emptyDigest, 0, "archive"⟩

/-- An environment in which every external call succeeds. -/
def envSuccess : Env :=
  ⟨true, "x86_64", .ok [⟨[fileOk]⟩], .ok [], true, false, true, true, true, true⟩

/-- Every stage succeeds except the final temporary-file removal. -/
def envCleanupFail : Env :=
  ⟨true, "x86_64", .ok [⟨[fileOk]⟩], .ok [], true, false, true, true, true, false⟩

/-- An existing installation whose removal fails. -/
def envRemoveFail : Env :=
  ⟨true, "x86_64", .ok [⟨[fileOk]⟩], .ok [], true, true, false, true, true, true⟩

/-- A host with an unsupported architecture. -/
def envRiscv : Env :=
  ⟨true, "riscv64", .ok [⟨[fileOk]⟩], .ok [], true, false, true, true, true, true⟩

/-- Two releases, each holding a matching linux/amd64 archive file. -/
def fileR1 : GoFile :=
  ⟨"go1.r1.tar.gz", "linux", "amd64", "go1.24.0", "aaa", 100, "archive"⟩

def fileR2 : GoFile :=
  ⟨"go1.r2.tar.gz", "linux", "amd64", "go9.99.9", "bbb", 100, "archive"⟩

def catalogTwo : List GoRelease := [⟨[fileR1]⟩, ⟨[fileR2]⟩]

/-! ### Helper lemmas -/

/-- `find?` over an append scans the left list first. -/
theorem find?_append_first {α : Type} (p : α → Bool) (l₁ l₂ : List α) :
    (l₁ ++ l₂).find? p =
      match l₁.find? p with
      | some x => some x
      | none => l₂.find? p := by
  induction l₁ with
  | nil => rfl
  | cons a l ih =>
    by_cases h : p a
    · simp [List.find?, h]
    · simp [List.find?, h, ih]

/-- The selection loop returns the first match of the flattened catalog,
and the not-found error otherwise. -/
theorem findGoFile_eq (arch : String) (releases : List GoRelease) :
    findGoFile arch releases =
      match (catFiles releases).find? (wantedFile arch) with
      | some f => Except.ok f
      | none =>
          Except.error ("Could not find a stable Go release for linux-" ++ arch) := by
  induction releases with
  | nil => rfl
  | cons r rest ih =>
    simp only [findGoFile, catFiles, find?_append_first]
    cases r.files.find? (wantedFile arch) <;> simp [ih]

/-! ### Claim theorems -/

/-- C3: the resolver returns the first `ReleaseFile`, scanning releases in
catalog order and files within each release in listed order, whose `os` is
`"linux"`, whose `arch` is the required architecture, and whose `kind` is
`"archive"`; it is exactly `find?` over the order-preserving flattening of
the catalog, so no version comparison or sorting takes place and the
earlier-listed release always wins. -/
theorem resolver_first_match (arch : String) (releases : List GoRelease) :
    getLatestGoRelease arch (.ok releases) =
      match (catFiles releases).find? (wantedFile arch) with
      | some f => Except.ok f
      | none =>
          Except.error ("Could not find a stable Go release for linux-" ++ arch) :=
  findGoFile_eq arch releases

/-- C3 witness: with two releases each containing a matching file, the
file of the earlier-listed release is returned even though the later one
carries a larger version string. -/
theorem resolver_first_match_witness :
    getLatestGoRelease "amd64" (.ok catalogTwo) = Except.ok fileR1 :=
  (resolver_first_match "amd64" catalogTwo).trans (by decide)

/-- C5: a catalog with no file matching the os/arch/kind filter across all
releases makes the resolver return an error naming the requested
OS/architecture pair. -/
theorem resolver_not_found (arch : String) (releases : List GoRelease)
    (h : (catFiles releases).find? (wantedFile arch) = none) :
    getLatestGoRelease arch (.ok releases) =
      Except.error ("Could not find a stable Go release for linux-" ++ arch) := by
  show findGoFile arch releases = _
  rw [findGoFile_eq, h]

/-- C5 witness: the empty catalog yields the not-found error for
linux-amd64. -/
theorem resolver_not_found_witness :
    getLatestGoRelease "amd64" (.ok []) =
      Except.error "Could not find a stable Go release for linux-amd64" :=
  (resolver_not_found "amd64" [] rfl).trans (by decide)

/-- C1 (amended): `verify_checksum` succeeds exactly when the expected
hash equals, byte-for-byte (case-sensitively), the lowercase hex rendering
of the SHA-256 digest of the content; on any exact mismatch it fails with
a message carrying both the expected and the calculated hash. -/
theorem verify_checksum_exact (content : List Nat) (expected : String) :
    (verifyChecksum expected content = .ok () ↔ expected = sha256hex content) ∧
    (expected ≠ sha256hex content →
      verifyChecksum expected content =
        .error ("Checksum mismatch!\n  Expected:   " ++ expected
                ++ "\n  Calculated: " ++ sha256hex content)) := by
  by_cases h : expected = sha256hex content
  · subst h
    simp [verifyChecksum]
  · have h' : sha256hex content ≠ expected := fun e => h e.symm
    simp [verifyChecksum, h, h']

/-- C1 witness: the exactly-lowercase digest of the empty file is
accepted. -/
theorem verify_checksum_exact_witness :
    verifyChecksum emptyDigest [] = .ok () :=
  (verify_checksum_exact [] emptyDigest).1.mpr (by decide)

/-- C1 counterexample: the uppercase rendering of the correct digest of
the empty file is equal to the computed digest up to case, yet
`verify_checksum` rejects it — the comparison is not case-insensitive and
no normalisation happens. -/
theorem verify_checksum_not_case_insensitive :
    lowerStr emptyDigestUpper = sha256hex [] ∧
    verifyChecksum emptyDigestUpper [] ≠ .ok () := by
  constructor
  · decide
  · decide

/-- C6: when the hash matches, `verify_checksum` returns success and the
filesystem afterwards is exactly the filesystem before — the file is
neither deleted, moved, nor modified, and no other path changes. -/
theorem verify_checksum_frame (fs : FS) (path : String) (content : List Nat)
    (expected : String) (hread : fs path = some content)
    (hmatch : expected = sha256hex content) :
    verifyChecksumFS expected path fs = (.ok (), fs) := by
  unfold verifyChecksumFS
  rw [hread, hmatch]
  unfold verifyChecksum
  simp

/-- C6 witness: verifying the empty file at its correct digest succeeds
and returns the unchanged filesystem. -/
theorem verify_checksum_frame_witness :
    verifyChecksumFS emptyDigest "/tmp/go.tar.gz"
        (fun p => if p = "/tmp/go.tar.gz" then some [] else none) =
      (.ok (), fun p => if p = "/tmp/go.tar.gz" then some [] else none) :=
  verify_checksum_frame _ "/tmp/go.tar.gz" [] _ (by simp) (by decide)

/-- C8: the downloader's result and the written filesystem are
independent of the `total_size` argument (it only feeds the progress-bar
denominator), and whenever the GET and the file creation succeed the
response body is written verbatim to the destination and the call
succeeds, with no comparison of the byte count against `total_size`. -/
theorem download_ignores_expected_size (resp : Except String (List Nat))
    (createOk : Bool) (path : String) (s1 s2 : Nat) (fs : FS) :
    ((downloadFile resp createOk path s1 fs).1 =
        (downloadFile resp createOk path s2 fs).1 ∧
      (downloadFile resp createOk path s1 fs).2.1 =
        (downloadFile resp createOk path s2 fs).2.1) ∧
    (∀ body, resp = .ok body → createOk = true →
      (downloadFile resp createOk path s1 fs).1 = .ok () ∧
      (downloadFile resp createOk path s1 fs).2.1 path = some body) := by
  unfold downloadFile
  cases resp <;> cases createOk <;> simp

/-- C8 witness: a 3-byte body against an expected size of 999 still
downloads successfully and writes exactly those 3 bytes. -/
theorem download_ignores_expected_size_witness :
    (downloadFile (.ok [1, 2, 3]) true "/tmp/f" 999 (fun _ => none)).1 =
        .ok () ∧
    (downloadFile (.ok [1, 2, 3]) true "/tmp/f" 999 (fun _ => none)).2.1
        "/tmp/f" = some [1, 2, 3] :=
  (download_ignores_expected_size (.ok [1, 2, 3]) true "/tmp/f" 999 0
    (fun _ => none)).2 [1, 2, 3] rfl rfl

/-- C10: the temporary download destination is the platform temporary
directory joined (Rust `Path::join` semantics) with the metadata-supplied
filename, with no sanitization; an ordinary filename lands under `/tmp`,
but an absolute filename or one with parent-directory segments resolves
outside the temporary directory. -/
theorem tarball_path_unsanitized :
    (∀ f : GoFile, tarballPath f.filename = RPath.join tempDir (parsePath f.filename)) ∧
    underDir tempDir (normalizeR (tarballPath "go1.25.0.linux-amd64.tar.gz")) = true ∧
    underDir tempDir (normalizeR (tarballPath "/etc/cron.d/pwn")) = false ∧
    underDir tempDir (normalizeR (tarballPath "../../etc/pwn")) = false :=
  ⟨fun _ => rfl, by decide, by decide, by decide⟩

/-- C10 witness: the destination for a release file named
`go1.25.0.linux-amd64.tar.gz` is the unsanitized join of the temporary
directory with that filename. -/
theorem tarball_path_unsanitized_witness :
    tarballPath fileOk.filename = RPath.join tempDir (parsePath fileOk.filename) :=
  tarball_path_unsanitized.1 fileOk

/-- C2: when the install target directory exists, its recursive removal is
the very first effect of `install_go` — before the tarball is opened or
extracted — and when that removal fails the installer aborts with an
error, never opening or unpacking the archive. -/
theorem install_removes_before_extract (e : Env) (h : e.goDirExists = true) :
    (installGo e).2.head? = some Event.removeGoDir ∧
    (e.removeDirOk = false →
      (∃ m, (installGo e).1 = Except.error m) ∧
      Event.openTarball ∉ (installGo e).2 ∧
      Event.unpack ∉ (installGo e).2) := by
  unfold installGo
  rw [h]
  by_cases hr : e.removeDirOk
  · simp [hr, extractGo]
  · simp [hr]

/-- C2 witness: with an existing installation whose removal fails, the
removal is attempted first, the run errors, and neither the open nor the
unpack of the archive happens. -/
theorem install_removes_before_extract_witness :
    (installGo envRemoveFail).2.head? = some Event.removeGoDir ∧
    Event.openTarball ∉ (installGo envRemoveFail).2 ∧
    Event.unpack ∉ (installGo envRemoveFail).2 :=
  have h := install_removes_before_extract envRemoveFail rfl
  ⟨h.1, (h.2 rfl).2.1, (h.2 rfl).2.2⟩

/-- C4: the architecture mapping is exactly `x86_64 → amd64` and
`aarch64 → arm64`; any other host architecture makes the run fail with
the unsupported-architecture error while neither the metadata GET nor the
download GET ever occurs. -/
theorem arch_mapping :
    mapArch "x86_64" = some "amd64" ∧ mapArch "aarch64" = some "arm64" ∧
    ∀ a : String, a ≠ "x86_64" → a ≠ "aarch64" →
      mapArch a = none ∧
      ∀ e : Env, e.sudoUser = true → e.hostArch = a →
        (mainModel e).1 = Except.error ("Unsupported architecture: " ++ a) ∧
        Event.fetchMeta ∉ (mainModel e).2 ∧
        Event.httpGetDownload ∉ (mainModel e).2 := by
  refine ⟨rfl, rfl, ?_⟩
  intro a h1 h2
  have hm : mapArch a = none := by simp [mapArch, h1, h2]
  refine ⟨hm, ?_⟩
  intro e hs ha
  simp [mainModel, hs, ha, hm]

/-- C4 witness: a riscv64 host is rejected with the
unsupported-architecture error and no network event appears in the
trace. -/
theorem arch_mapping_witness :
    mapArch "riscv64" = none ∧
    (mainModel envRiscv).1 = Except.error ("Unsupported architecture: " ++ "riscv64") ∧
    Event.fetchMeta ∉ (mainModel envRiscv).2 ∧
    Event.httpGetDownload ∉ (mainModel envRiscv).2 :=
  have h := arch_mapping.2.2 "riscv64" (by decide) (by decide)
  ⟨h.1, h.2 envRiscv rfl rfl⟩

/-- C9: a successful exit requires the final temporary-file removal to
succeed — when `fs::remove_file` fails, `main` returns an error (hence a
non-zero exit code) even though installation already completed. -/
theorem cleanup_failure_fails_run (e : Env) (h : e.removeTmpOk = false) :
    (mainModel e).1 ≠ Except.ok () := by
  unfold mainModel
  intro hc
  repeat' split at hc
  all_goals simp_all

/-- C9 witness: every stage of the run succeeds and the final message is
reached, yet the failing temporary-file removal makes the whole run
fail. -/
theorem cleanup_failure_fails_run_witness :
    Event.finalMessage ∈ (mainModel envCleanupFail).2 ∧
    (mainModel envCleanupFail).1 ≠ Except.ok () :=
  ⟨by decide, cleanup_failure_fails_run envCleanupFail rfl⟩

/-- C7 (amended): on every fully successful run the effects occur in the
order guard, metadata fetch, download, file creation, hash verification,
installation, then the final instructional message, and last the removal
of the temporary archive — the final message is printed before the
cleanup step, not after it. -/
theorem success_run_order (e : Env) (h : (mainModel e).1 = Except.ok ()) :
    (mainModel e).2 =
      [Event.guard, Event.fetchMeta, Event.httpGetDownload, Event.createFile,
       Event.readForHash] ++ (installGo e).2
        ++ [Event.finalMessage, Event.removeTmp] := by
  unfold mainModel at h ⊢
  repeat' split at h
  all_goals simp_all

/-- C7 witness: a concrete fully successful run produces exactly the
guard-to-cleanup trace. -/
theorem success_run_order_witness :
    (mainModel envSuccess).2 =
      [Event.guard, Event.fetchMeta, Event.httpGetDownload, Event.createFile,
       Event.readForHash] ++ (installGo envSuccess).2
        ++ [Event.finalMessage, Event.removeTmp] :=
  success_run_order envSuccess (by decide)

/-- C7 counterexample: on a concrete fully successful run the final
instructional message appears in the trace strictly before the
temporary-file removal, so the message is not printed "only after the
cleanup step has completed". -/
theorem final_message_before_cleanup :
    (mainModel envSuccess).1 = Except.ok () ∧
    (mainModel envSuccess).2.indexOf Event.finalMessage <
      (mainModel envSuccess).2.indexOf Event.removeTmp := by
  constructor
  · decide
  · decide

end GoInstaller
